import Mathlib

/-!
Verification of the orchestration script
src/grass7/raster/r.green/r.green.hydro/r.green.hydro.recommended/r.green.hydro.recommended.py
against its natural-language specification.

The script is pure glue around an external GIS engine: it reads parsed
options and flags, adjusts the analysis region, optionally filters the river
vector by exclusion areas and viewsheds, optionally derives a usable
discharge raster, and delegates to r.green.hydro.optimal.  We embed it as a
pure function from the parsed inputs and an environment (initial region,
viewpoint coordinates, overwrite flag) to the ordered trace of external
calls and temporary-registry appends it performs.  GRASS option values are
strings (the parser returns every option as a string), so truthiness tests
in the source are tests for non-emptiness of strings; this is modelled
exactly, because two claims hinge on it.
-/

/-- Python truthiness of a GRASS option value: every option arrives as a
string, and a string is truthy iff it is non-empty. -/
def truthy (s : String) : Bool := !(s == "")

/-- Python equality between a str and an int: always False (values of
different types compare unequal under Python ==).  The source compares
info["nsres"] (a string parsed from g.region output) with the int 0. -/
def pyEqStrInt (_s : String) (_n : Int) : Bool := false

/-- Decimal value of a digit string (accumulator form). -/
def digitsVal : List Char → Nat → Nat
  | [], acc => acc
  | c :: cs, acc => digitsVal cs (acc * 10 + (c.toNat - 48))

/-- Python int(s) applied to a validated integer option string (the GRASS
parser admits only an optional minus sign followed by decimal digits for a
type-integer option such as n_points). -/
def pyInt (s : String) : Int :=
  match s.data with
  | Char.ofNat 45 :: cs => -(digitsVal cs 0 : Int)
  | cs => (digitsVal cs 0 : Int)

/-- The active-region descriptor, as printed by g.region -pg and consumed by
set_old_region: row/column counts, the four boundary coordinates and the two
resolutions, all as strings. -/
structure Region where
  rows : String
  cols : String
  n : String
  s : String
  e : String
  w : String
  nsres : String
  ewres : String
deriving DecidableEq

/-- The parsed options dictionary of the module (all values strings, empty
string when an optional input without a default answer was not given). -/
structure Options where
  elevation : String
  river : String
  discharge_current : String
  discharge_natural : String
  mfd : String
  len_plant : String
  len_min : String
  distance : String
  output_plant : String
  output_point : String
  area : String
  buff : String
  efficiency : String
  points_view : String
  visibility_resolution : String
  output_vis : String
  n_points : String
  p_min : String
  percentage : String
deriving DecidableEq

/-- The parsed flags dictionary: -d (debug) and -c (clean). -/
structure Flags where
  d : Bool
  c : Bool
deriving DecidableEq

/-- The module-level globals set by gcore.parser() in the __main__ block;
the body of main reads these, not its parameters. -/
structure Globals where
  options : Options
  flags : Flags
deriving DecidableEq

/-- The WHERE clause built for v.db.droprow: the source writes
either the string cat<N (when int(n_points) > 0) or the string cat=0. -/
inductive WhereClause where
  | catLt (np : String)
  | catEq0
deriving DecidableEq

/-- The literal WHERE string the source passes to v.db.droprow. -/
def WhereClause.render : WhereClause → String
  | .catLt np => "cat<" ++ np
  | .catEq0 => "cat=0"

/-- Whether a polygon of the given category satisfies the WHERE clause. -/
def WhereClause.holds : WhereClause → Int → Bool
  | .catLt np, cat => cat < pyInt np
  | .catEq0, cat => cat == 0

/-- The WHERE clause chosen by the source from the n_points option string:
cat<n_points when int(n_points) > 0, else cat=0. -/
def whereClauseFor (np : String) : WhereClause :=
  if 0 < pyInt np then WhereClause.catLt np else WhereClause.catEq0

/-- Modelled from the spec (external collaborator, "attribute-table row
filtering"): v.db.droprow removes the features that satisfy the WHERE
condition, so the kept polygons are those whose category does NOT satisfy
it. -/
def droprowKept (cats : List Int) (wc : WhereClause) : List Int :=
  cats.filter (fun c => !(wc.holds c))

/-- The three raster-algebra formulas the source builds for mapcalc, kept
structured; render reproduces the exact source format strings. -/
inductive MapcalcFor where
  | visSum (s : String)
  | dischargeMinus (cur mfd : String)
  | dischargeMinusFrac (cur nat pct : String)
deriving DecidableEq

/-- The literal formula string passed to mapcalc, exactly as the source
formats it. -/
def MapcalcFor.render : MapcalcFor → String
  | .visSum s => "final_vis = " ++ s
  | .dischargeMinus cur mfd => "tmp_discharge=" ++ cur ++ "-" ++ mfd
  | .dischargeMinusFrac cur nat pct =>
      "tmp_discharge=" ++ cur ++ "-" ++ nat ++ "*" ++ pct ++ "/100.0"

/-- The raster named on the left-hand side of the formula (the raster the
mapcalc call creates). -/
def MapcalcFor.target : MapcalcFor → String
  | .visSum _ => "final_vis"
  | .dischargeMinus _ _ => "tmp_discharge"
  | .dischargeMinusFrac _ _ _ => "tmp_discharge"

/-- One external-engine call issued by the script, with the arguments the
source passes.  v.overlay is always called with operator=not and flags=t;
r.viewshed with flags=b and memory=1000; r.green.hydro.optimal with
flags=c (the clean behaviour is always requested). -/
inductive Cmd where
  | parseRegionM
  | setRegionRaster (raster : String)
  | parseRegionPG
  | setRegionRes (res : String)
  | vBuffer (input output distance : String) (ovw : Bool)
  | vOverlayNot (ainput binput output : String) (ovw : Bool)
  | rViewshed (input output : String) (coords : Int × Int) (maxDistance : Nat) (ovw : Bool)
  | mapcalc (formula : MapcalcFor) (ovw : Bool)
  | setRegionFull (info : Region)
  | rToVect (input output : String) (ovw : Bool)
  | vDbDroprow (input : String) (wc : WhereClause) (output : String) (ovw : Bool)
  | optimal (discharge river elevation len_plant output_plant output_point
             distance len_min efficiency p_min : String)
deriving DecidableEq

/-- One step of the execution trace: an external call, or an append to one
of the two module-level temporary-registry lists (TMPRAST / TMPVECT). -/
inductive Event where
  | run (c : Cmd)
  | appendRast (name : String)
  | appendVect (name : String)
deriving DecidableEq

/-- The environment the script executes in: the active region at start, the
native region of each raster (used by g.region raster=...), the engine
response to a pure resolution change (g.region res=...), the point
geometries read from the viewpoint vector, and the process-wide overwrite
flag. -/
structure Env where
  reg0 : Region
  dtmRegion : String → Region
  resRegion : String → Region → Region
  viewpoints : List (Int × Int)
  ovw : Bool

/-- Effect of a call on the active region: the full restore overwrites every
field with the captured values; raster alignment and resolution changes are
engine-determined; every other call leaves the region alone. -/
def Cmd.regionEffect (env : Env) (c : Cmd) (r : Region) : Region :=
  match c with
  | .setRegionRaster ras => env.dtmRegion ras
  | .setRegionRes res => env.resRegion res r
  | .setRegionFull info => info
  | _ => r

/-- The active region after replaying a trace from a start region. -/
def regionAfter (env : Env) (r : Region) (t : List Event) : Region :=
  t.foldl (fun acc ev => match ev with
    | Event.run c => c.regionEffect env acc
    | _ => acc) r

/-- Lines 259-263: parse g.region -m and, when the comparison of the
resolution strings with the int 0 succeeds, re-align the region to the
elevation raster.  (The comparison is str == int, hence pyEqStrInt.) -/
def regionCheckEvents (dtm : String) (reg0 : Region) : List Event :=
  Event.run Cmd.parseRegionM ::
    (if pyEqStrInt reg0.nsres 0 || pyEqStrInt reg0.ewres 0
     then [Event.run (Cmd.setRegionRaster dtm)] else [])

/-- Lines 265-280: the exclusion-area block.  Returns the events and the
river name after the block (tmp1_river when the overlay ran). -/
def areaEvents (river area buff : String) (ovw : Bool) : List Event × String :=
  if truthy area then
    let bufStep : List Event × String :=
      if truthy buff then
        ([Event.run (Cmd.vBuffer area "buff_area" buff ovw),
          Event.appendVect "buff_area"], "buff_area")
      else ([], area)
    (bufStep.1 ++
       [Event.run (Cmd.vOverlayNot river bufStep.2 "tmp1_river" ovw),
        Event.appendVect "tmp1_river"],
     "tmp1_river")
  else ([], river)

/-- Lines 289-297: the per-viewpoint loop.  For the i-th point it runs
r.viewshed into visual_i (4 km cap), appends visual_i to TMPRAST, and
extends the sum string with +visual_i.  Returns the events and the final
sum string. -/
def viewshedSteps (dtm : String) (ovw : Bool) :
    String → Nat → List (Int × Int) → List Event × String
  | s, _, [] => ([], s)
  | s, i, p :: ps =>
      let out := "visual_" ++ toString i
      let rest := viewshedSteps dtm ovw (s ++ "+" ++ out) (i + 1) ps
      (Event.run (Cmd.rViewshed dtm out p 4000 ovw) :: Event.appendRast out :: rest.1,
       rest.2)

/-- Lines 282-322: the viewpoint block.  regNow is the active region at
entry (what parsing g.region -pg returns there).  Returns the events and
the river name after the block (tmp2_river when the block ran). -/
def viewEvents (o : Options) (ovw : Bool) (pts : List (Int × Int))
    (regNow : Region) (river : String) : List Event × String :=
  if truthy o.points_view then
    let res := viewshedSteps o.elevation ovw "0" 0 pts
    let wc := whereClauseFor o.n_points
    (Event.run Cmd.parseRegionPG ::
       Event.run (Cmd.setRegionRes o.visibility_resolution) ::
       res.1 ++
       Event.appendRast "final_vis" ::
       Event.run (Cmd.mapcalc (MapcalcFor.visSum res.2) ovw) ::
       Event.run (Cmd.setRegionFull regNow) ::
       Event.run (Cmd.rToVect "final_vis" "tmp_vis" ovw) ::
       Event.appendVect "tmp_vis" ::
       Event.run (Cmd.vDbDroprow "tmp_vis" wc o.output_vis ovw) ::
       Event.run (Cmd.vOverlayNot river o.output_vis "tmp2_river" ovw) ::
       [Event.appendVect "tmp2_river"],
     "tmp2_river")
  else ([], river)

/-- Lines 326-338: the legal-discharge block.  Returns the events and the
discharge name passed on to delegation. -/
def dischargeEvents (o : Options) (ovw : Bool) : List Event × String :=
  if truthy o.mfd then
    ([Event.run (Cmd.mapcalc (MapcalcFor.dischargeMinus o.discharge_current o.mfd) ovw),
      Event.appendRast "tmp_discharge"], "tmp_discharge")
  else if truthy o.discharge_natural then
    ([Event.run (Cmd.mapcalc
        (MapcalcFor.dischargeMinusFrac o.discharge_current o.discharge_natural o.percentage) ovw),
      Event.appendRast "tmp_discharge"], "tmp_discharge")
  else ([], o.discharge_current)

/-- The events up to the viewpoint block (region check plus area block). -/
def preViewEvents (g : Globals) (env : Env) : List Event :=
  regionCheckEvents g.options.elevation env.reg0 ++
    (areaEvents g.options.river g.options.area g.options.buff env.ovw).1

/-- The region at entry of the viewpoint block, i.e. what parsing
g.region -pg returns there (info_old in the source). -/
def capturedRegion (g : Globals) (env : Env) : Region :=
  regionAfter env env.reg0 (preViewEvents g env)

/-- Result of one execution of the body of main: the full event trace, the
river and discharge names passed to r.green.hydro.optimal, and the value of
DEBUG captured by atexit.register at line 234 — the local DEBUG is False
there, before flags[d] is read at line 250, and the bool is passed to
atexit by value. -/
structure RunResult where
  trace : List Event
  riverArg : String
  dischargeArg : String
  debugAtRegister : Bool
deriving DecidableEq

/-- The body of main (lines 232-353), reading only the module-level
globals.  It registers cleanup with debug=False, runs the region check,
the area block, the viewpoint block and the discharge block in order, and
ends with the delegation call. -/
def mainRun (g : Globals) (env : Env) : RunResult :=
  let o := g.options
  let ev1 := regionCheckEvents o.elevation env.reg0
  let ra := areaEvents o.river o.area o.buff env.ovw
  let rv := viewEvents o env.ovw env.viewpoints (capturedRegion g env) ra.2
  let rd := dischargeEvents o env.ovw
  { trace := ev1 ++ ra.1 ++ rv.1 ++ rd.1 ++
      [Event.run (Cmd.optimal rd.2 rv.2 o.elevation o.len_plant o.output_plant
        o.output_point o.distance o.len_min o.efficiency o.p_min)]
    riverArg := rv.2
    dischargeArg := rd.2
    debugAtRegister := false }

namespace RGreenHydroRecommended

/-- def main(opts, flgs): the body never reads opts or flgs; it reads the
module-level options and flags globals (every access in lines 237-256 is to
the global dictionaries). -/
def main (_opts : Options) (_flgs : Flags) (g : Globals) (env : Env) : RunResult :=
  mainRun g env

end RGreenHydroRecommended

/-- Contents of the TMPRAST registry accumulated along a trace. -/
def tmprastOf (t : List Event) : List String :=
  t.filterMap (fun ev => match ev with
    | Event.appendRast nm => some nm
    | _ => none)

/-- Contents of the TMPVECT registry accumulated along a trace. -/
def tmpvectOf (t : List Event) : List String :=
  t.filterMap (fun ev => match ev with
    | Event.appendVect nm => some nm
    | _ => none)

/-- Modelled from the spec: cleanup from libgreen.utils (repository code not
under src/) deletes the given rasters and vectors unless debug is set
("A debug flag suppresses deletion so intermediate layers remain
inspectable").  Returns the list of deleted names. -/
def cleanup (rast vect : List String) (debug : Bool) : List String :=
  if debug then [] else rast ++ vect

/-- The names deleted by the exit-time cleanup of a run: the registries
accumulated by the trace, with the debug argument captured at
registration time. -/
def deletedAtExit (g : Globals) (env : Env) : List String :=
  let r := mainRun g env
  cleanup (tmprastOf r.trace) (tmpvectOf r.trace) r.debugAtRegister

/-- The raster layer created by a call, when it creates one: r.viewshed
creates its output raster, mapcalc creates the raster on the left of its
formula. -/
def createsRastName : Cmd → Option String
  | .rViewshed _ out _ _ _ => some out
  | .mapcalc f _ => some f.target
  | _ => none

/-- The vector layer created by a call, when it creates one.  (The outputs
of r.green.hydro.optimal are the final user outputs, outside the pipeline
of intermediates.) -/
def createsVectName : Cmd → Option String
  | .vBuffer _ out _ _ => some out
  | .vOverlayNot _ _ out _ => some out
  | .rToVect _ out _ => some out
  | .vDbDroprow _ _ out _ => some out
  | _ => none

/-- The temporary layers a call creates: its created layer names restricted
to the names that end up in the registries (tempR / tempV), tagged true for
rasters. -/
def createdTemps (tempR tempV : List String) (c : Cmd) : List (Bool × String) :=
  (match createsRastName c with
   | some nm => if tempR.contains nm then [(true, nm)] else []
   | none => []) ++
  (match createsVectName c with
   | some nm => if tempV.contains nm then [(false, nm)] else []
   | none => [])

/-- Checker for the claimed registration discipline: walking the trace with
the registries accumulated so far (accR / accV), every temporary layer must
already be registered when the call creating it runs. -/
def chkRegBefore (tempR tempV : List String) :
    List String → List String → List Event → Bool
  | _, _, [] => true
  | accR, accV, Event.appendRast nm :: rest =>
      chkRegBefore tempR tempV (nm :: accR) accV rest
  | accR, accV, Event.appendVect nm :: rest =>
      chkRegBefore tempR tempV accR (nm :: accV) rest
  | accR, accV, Event.run c :: rest =>
      ((createdTemps tempR tempV c).all (fun p =>
        if p.1 then accR.contains p.2 else accV.contains p.2)) &&
      chkRegBefore tempR tempV accR accV rest

/-- Whether every temporary layer created along a trace was registered at
or before the creating call. -/
def regBeforeCreate (t : List Event) : Bool :=
  chkRegBefore (tmprastOf t) (tmpvectOf t) [] [] t

/-- Relaxed checker: every temporary layer is registered at the latest by
the event immediately following the call that creates it (registered
already, or the next trace event is exactly its registry append). -/
def chkRegWithin (tempR tempV : List String) :
    List String → List String → List Event → Bool
  | _, _, [] => true
  | accR, accV, Event.appendRast nm :: rest =>
      chkRegWithin tempR tempV (nm :: accR) accV rest
  | accR, accV, Event.appendVect nm :: rest =>
      chkRegWithin tempR tempV accR (nm :: accV) rest
  | accR, accV, Event.run c :: rest =>
      ((createdTemps tempR tempV c).all (fun p =>
        (if p.1 then accR.contains p.2 else accV.contains p.2) ||
        (match rest with
         | Event.appendRast m :: _ => p.1 && (p.2 == m)
         | Event.appendVect m :: _ => !p.1 && (p.2 == m)
         | _ => false))) &&
      chkRegWithin tempR tempV accR accV rest

/-- Whether every temporary layer created along a trace is registered at or
immediately after its creation. -/
def regWithinOneOfCreate (t : List Event) : Bool :=
  chkRegWithin (tmprastOf t) (tmpvectOf t) [] [] t

/-- Selects a mapcalc call creating the tmp_discharge raster. -/
def dischargeSel : Event → Option MapcalcFor
  | Event.run (Cmd.mapcalc f _) =>
      if f.target == "tmp_discharge" then some f else none
  | _ => none

/-- The formulas of the mapcalc calls in a trace that create the
tmp_discharge raster (the discharge-adjustment raster algebra). -/
def dischargeMapcalcs (t : List Event) : List MapcalcFor :=
  t.filterMap dischargeSel

/-- Process exit outcome: a normal exit code, or termination through a
fatal error raised by a failed delegated call. -/
inductive ExitStatus where
  | code (n : Nat)
  | fatalError
deriving DecidableEq

/-- Whether the process terminated successfully (exit code 0). -/
def ExitStatus.isSuccess : ExitStatus → Bool
  | .code 0 => true
  | _ => false

/-- Whether every external call of a trace succeeds under the given
success oracle. -/
def allOk (ok : Cmd → Bool) (t : List Event) : Bool :=
  t.all (fun ev => match ev with
    | Event.run c => ok c
    | _ => true)

/-- The prefix of a trace actually executed when calls may fail: execution
stops at the first failing call (which raises a fatal error). -/
def truncAtFail (ok : Cmd → Bool) : List Event → List Event
  | [] => []
  | Event.run c :: rest =>
      if ok c then Event.run c :: truncAtFail ok rest else [Event.run c]
  | ev :: rest => ev :: truncAtFail ok rest

/-- The whole process: the module-level GISBASE check at lines 214-216
exits with code 1 before the parser or main run when the session indicator
is absent; otherwise main executes, sys.exit(main(...)) exits with code 0
on completion (main returns None), and a failing delegated call terminates
the run fatally with the trace truncated at the failure. -/
def script (gisbase : Bool) (g : Globals) (env : Env) (ok : Cmd → Bool) :
    ExitStatus × List Event :=
  if gisbase then
    let r := mainRun g env
    if allOk ok r.trace then (ExitStatus.code 0, r.trace)
    else (ExitStatus.fatalError, truncAtFail ok r.trace)
  else (ExitStatus.code 1, [])

/-- A sample well-formed active region. -/
def sampleRegion : Region :=
  { rows := "100", cols := "100", n := "5000", s := "0", e := "5000", w := "0",
    nsres := "50", ewres := "50" }

/-- A sample region whose north-south resolution prints as the string 0. -/
def degenRegion : Region :=
  { sampleRegion with nsres := "0" }

/-- Sample parsed options with every optional input at its parser default
(optional inputs without a default answer are the empty string). -/
def baseOptions : Options :=
  { elevation := "dem", river := "streams", discharge_current := "disch",
    discharge_natural := "", mfd := "", len_plant := "100", len_min := "10",
    distance := "0.5", output_plant := "out_plant", output_point := "",
    area := "", buff := "0", efficiency := "1", points_view := "",
    visibility_resolution := "250", output_vis := "", n_points := "0",
    p_min := "10.0", percentage := "20.00" }

/-- A sample environment: sane start region, no viewpoints, overwrite off. -/
def baseEnv : Env :=
  { reg0 := sampleRegion, dtmRegion := fun _ => sampleRegion,
    resRegion := fun _ r => { r with nsres := "250", ewres := "250" },
    viewpoints := [], ovw := false }

/-- Sample globals: all optional inputs absent, flags off. -/
def gBase : Globals := { options := baseOptions, flags := { d := false, c := false } }

/-- Sample globals: exclusion area given, buffer left at its default 0. -/
def gAreaDefaultBuff : Globals :=
  { options := { baseOptions with area := "park" }, flags := { d := false, c := false } }

/-- Sample globals: exclusion area given with the debug flag set. -/
def gAreaDebug : Globals :=
  { options := { baseOptions with area := "park" }, flags := { d := true, c := false } }

/-- Sample globals: exclusion area given with a 50 m buffer. -/
def gArea50 : Globals :=
  { options := { baseOptions with area := "park", buff := "50" },
    flags := { d := false, c := false } }

/-- Sample globals: viewpoints given, with a named viewed-areas output. -/
def gView : Globals :=
  { options := { baseOptions with points_view := "pts", output_vis := "vis_out" },
    flags := { d := false, c := false } }

/-- Sample globals: minimum flow discharge given. -/
def gMfd : Globals :=
  { options := { baseOptions with mfd := "2" }, flags := { d := false, c := false } }

/-- A sample environment holding two viewpoint geometries. -/
def envView : Env := { baseEnv with viewpoints := [(0, 0), (10, 10)] }

/-- An environment whose active region has a degenerate (zero) printed
north-south resolution. -/
def degenEnv : Env := { baseEnv with reg0 := degenRegion }

/-- Whether an event is a g.region raster=... re-alignment call. -/
def isSetRegionRasterEvent : Event → Bool
  | Event.run (Cmd.setRegionRaster _) => true
  | _ => false

/-- Every event of the per-viewpoint loop is either an r.viewshed call or a
TMPRAST append. -/
theorem viewshedSteps_shape (dtm : String) (ovw : Bool) :
    ∀ (pts : List (Int × Int)) (s : String) (i : Nat) (ev : Event),
      ev ∈ (viewshedSteps dtm ovw s i pts).1 →
      (∃ out pt, ev = Event.run (Cmd.rViewshed dtm out pt 4000 ovw)) ∨
      ∃ out, ev = Event.appendRast out := by
  intro pts
  induction pts with
  | nil => intro s i ev h; simp [viewshedSteps] at h
  | cons p ps ih =>
      intro s i ev h
      simp only [viewshedSteps, List.mem_cons] at h
      rcases h with h | h | h
      · exact Or.inl ⟨_, _, h⟩
      · exact Or.inr ⟨_, h⟩
      · exact ih _ _ ev h

/-- The per-viewpoint loop issues no region re-alignment call. -/
theorem viewshedSteps_no_region_raster (dtm : String) (ovw : Bool)
    (pts : List (Int × Int)) (s : String) (i : Nat) :
    ((viewshedSteps dtm ovw s i pts).1).filter isSetRegionRasterEvent = [] := by
  rw [List.filter_eq_nil_iff]
  intro ev h
  rcases viewshedSteps_shape dtm ovw pts s i ev h with ⟨out, pt, rfl⟩ | ⟨out, rfl⟩ <;>
    simp [isSetRegionRasterEvent]

/-- C10: the behaviour of main is identical for any values of its opts and
flgs parameters, because its body reads only the module-level parsed
options and flags globals. -/
theorem main_ignores_its_parameters (o1 : Options) (f1 : Flags) (o2 : Options)
    (f2 : Flags) (g : Globals) (env : Env) :
    RGreenHydroRecommended.main o1 f1 g env = RGreenHydroRecommended.main o2 f2 g env := rfl

/-- C3: with no exclusion-area vector and no viewpoint vector, the river
name passed to the delegated optimal-placement routine is the input river
name, unmodified. -/
theorem river_unmodified_without_exclusions (g : Globals) (env : Env)
    (ha : truthy g.options.area = false)
    (hp : truthy g.options.points_view = false) :
    (mainRun g env).riverArg = g.options.river := by
  simp [mainRun, areaEvents, viewEvents, ha, hp]

/-- Witness for C3 at the default inputs. -/
theorem river_unmodified_without_exclusions_witness :
    truthy baseOptions.area = false ∧ truthy baseOptions.points_view = false ∧
    (mainRun gBase baseEnv).riverArg = baseOptions.river :=
  ⟨by decide, by decide,
   river_unmodified_without_exclusions gBase baseEnv (by decide) (by decide)⟩

/-- C7: the degenerate-region guard never fires: the source compares the
resolution strings from parse_command with the integer 0, and a Python str
never equals an int, so no run re-aligns the region to the elevation
raster — not even when the printed resolution is the string 0. -/
theorem degenerate_region_guard_never_fires (g : Globals) (env : Env) :
    pyEqStrInt env.reg0.nsres 0 = false ∧
    ((mainRun g env).trace.filter isSetRegionRasterEvent) = [] := by
  refine ⟨rfl, ?_⟩
  cases ha : truthy g.options.area <;>
    cases hb : truthy g.options.buff <;>
      cases hp : truthy g.options.points_view <;>
        cases hm : truthy g.options.mfd <;>
          cases hn : truthy g.options.discharge_natural <;>
            simp [mainRun, areaEvents, viewEvents, dischargeEvents,
              regionCheckEvents, pyEqStrInt, ha, hb, hp, hm, hn,
              isSetRegionRasterEvent, List.filter_append,
              viewshedSteps_no_region_raster]

/-- C4: with an exclusion area and the buffer option at its default 0, the
buffer step is NOT skipped: the option value is the string 0, which is
truthy in Python, so v.buffer runs with distance 0 and the overlay takes
buff_area — not the original exclusion vector — as its second input. -/
theorem buffer_step_runs_at_zero_distance :
    gAreaDefaultBuff.options.buff = "0" ∧
    truthy gAreaDefaultBuff.options.buff = true ∧
    Event.run (Cmd.vBuffer "park" "buff_area" "0" false)
      ∈ (mainRun gAreaDefaultBuff baseEnv).trace ∧
    Event.run (Cmd.vOverlayNot "streams" "buff_area" "tmp1_river" false)
      ∈ (mainRun gAreaDefaultBuff baseEnv).trace := by
  refine ⟨rfl, by decide, ?_, ?_⟩ <;> decide

/-- C6: the debug flag does not suppress deletion: atexit.register captures
the local DEBUG value, which is still False at line 234 — flags[d] is read
only at line 250 — so cleanup runs with debug=False and deletes the
accumulated temporaries even on a run invoked with the debug flag set. -/
theorem debug_flag_does_not_suppress_deletion :
    gAreaDebug.flags.d = true ∧
    (mainRun gAreaDebug baseEnv).debugAtRegister = false ∧
    deletedAtExit gAreaDebug baseEnv = ["buff_area", "tmp1_river"] ∧
    (deletedAtExit gAreaDebug baseEnv).isEmpty = false ∧
    cleanup ["buff_area", "tmp1_river"] [] true = [] := by
  refine ⟨rfl, rfl, by decide, by decide, rfl⟩

/-- C9: the missing-GISBASE check exits with code 1 before any work; a run
in which every delegated call succeeds exits with code 0; a run with a
failing delegated call terminates fatally, not with code 0. -/
theorem exit_status_contract (g : Globals) (env : Env) (ok : Cmd → Bool) :
    (script false g env ok = (ExitStatus.code 1, []) ∧
       (ExitStatus.code 1).isSuccess = false) ∧
    (allOk ok (mainRun g env).trace = true →
       script true g env ok = (ExitStatus.code 0, (mainRun g env).trace) ∧
       (ExitStatus.code 0).isSuccess = true) ∧
    (allOk ok (mainRun g env).trace = false →
       (script true g env ok).1 = ExitStatus.fatalError ∧
       ExitStatus.fatalError.isSuccess = false) := by
  refine ⟨⟨by simp [script], rfl⟩, fun h => ⟨by simp [script, h], rfl⟩,
    fun h => ⟨by simp [script, h], rfl⟩⟩

/-- Witness for C9: the all-success oracle on the default inputs exits with
code 0. -/
theorem exit_status_contract_witness :
    script true gBase baseEnv (fun _ => true) =
      (ExitStatus.code 0, (mainRun gBase baseEnv).trace) :=
  ((exit_status_contract gBase baseEnv (fun _ => true)).2.1 (by decide)).1

/-- The per-viewpoint loop contains no discharge-adjustment mapcalc. -/
theorem viewshedSteps_no_discharge_mapcalc (dtm : String) (ovw : Bool)
    (pts : List (Int × Int)) (s : String) (i : Nat) :
    ((viewshedSteps dtm ovw s i pts).1).filterMap dischargeSel = [] := by
  rw [List.filterMap_eq_nil_iff]
  intro ev h
  rcases viewshedSteps_shape dtm ovw pts s i ev h with ⟨out, pt, rfl⟩ | ⟨out, rfl⟩ <;>
    simp [dischargeSel]

/-- C1: exactly one discharge adjustment applies, mfd taking precedence:
with an mfd value the delegated discharge is the new tmp_discharge raster
computed by the single mapcalc current−mfd; else with a natural discharge
it is tmp_discharge computed by the single mapcalc
current−natural×percentage/100; else it is the unmodified input reference
and no discharge mapcalc runs at all. -/
theorem discharge_adjustment_precedence (g : Globals) (env : Env) :
    (truthy g.options.mfd = true →
       (mainRun g env).dischargeArg = "tmp_discharge" ∧
       dischargeMapcalcs (mainRun g env).trace =
         [MapcalcFor.dischargeMinus g.options.discharge_current g.options.mfd]) ∧
    (truthy g.options.mfd = false → truthy g.options.discharge_natural = true →
       (mainRun g env).dischargeArg = "tmp_discharge" ∧
       dischargeMapcalcs (mainRun g env).trace =
         [MapcalcFor.dischargeMinusFrac g.options.discharge_current
            g.options.discharge_natural g.options.percentage]) ∧
    (truthy g.options.mfd = false → truthy g.options.discharge_natural = false →
       (mainRun g env).dischargeArg = g.options.discharge_current ∧
       dischargeMapcalcs (mainRun g env).trace = []) := by
  have key : dischargeMapcalcs (mainRun g env).trace =
      dischargeMapcalcs (dischargeEvents g.options env.ovw).1 := by
    cases ha : truthy g.options.area <;>
      cases hb : truthy g.options.buff <;>
        cases hp : truthy g.options.points_view <;>
          simp [mainRun, areaEvents, viewEvents, regionCheckEvents, pyEqStrInt,
            ha, hb, hp, dischargeMapcalcs, dischargeSel, List.filterMap_append,
            viewshedSteps_no_discharge_mapcalc, MapcalcFor.target]
  have argEq : (mainRun g env).dischargeArg = (dischargeEvents g.options env.ovw).2 := rfl
  rw [key]
  refine ⟨fun hm => ?_, fun hm hn => ?_, fun hm hn => ?_⟩ <;>
    rw [argEq] <;>
      simp [dischargeEvents, hm, dischargeMapcalcs, dischargeSel, MapcalcFor.target, *]

/-- Witness for C1: with mfd=2 the delegated discharge is tmp_discharge and
the single adjustment mapcalc is disch−2. -/
theorem discharge_adjustment_precedence_witness :
    (mainRun gMfd baseEnv).dischargeArg = "tmp_discharge" ∧
    dischargeMapcalcs (mainRun gMfd baseEnv).trace =
      [MapcalcFor.dischargeMinus "disch" "2"] :=
  (discharge_adjustment_precedence gMfd baseEnv).1 (by decide)

/-- Splitting a trace splits the region replay. -/
theorem regionAfter_append (env : Env) (r : Region) (a b : List Event) :
    regionAfter env r (a ++ b) = regionAfter env (regionAfter env r a) b := by
  simp [regionAfter, List.foldl_append]

/-- The per-viewpoint loop leaves the active region untouched. -/
theorem regionAfter_viewshedSteps (env : Env) (dtm : String) (ovw : Bool) :
    ∀ (pts : List (Int × Int)) (s : String) (i : Nat) (r : Region),
      regionAfter env r (viewshedSteps dtm ovw s i pts).1 = r := by
  intro pts
  induction pts with
  | nil => intro s i r; rfl
  | cons p ps ih =>
      intro s i r
      simp [viewshedSteps, regionAfter, Cmd.regionEffect] at ih ⊢
      exact ih _ _ r

/-- After a run with viewpoints, replaying the whole trace ends on the
region captured before the resolution switch: the full restore overwrites
every field and no later call touches the region. -/
theorem region_restored_helper (g : Globals) (env : Env)
    (h : truthy g.options.points_view = true) :
    regionAfter env env.reg0 (mainRun g env).trace = capturedRegion g env := by
  cases ha : truthy g.options.area <;>
    cases hb : truthy g.options.buff <;>
      cases hm : truthy g.options.mfd <;>
        cases hn : truthy g.options.discharge_natural <;>
          simp [mainRun, areaEvents, viewEvents, dischargeEvents,
            regionCheckEvents, pyEqStrInt, capturedRegion, preViewEvents,
            h, ha, hb, hm, hn, regionAfter_append, regionAfter,
            Cmd.regionEffect, regionAfter_viewshedSteps]

/-- C5: after the viewpoint-driven visibility computation, the active
region has exactly the row count, column count, four boundary coordinates
and two resolutions captured before the temporary resolution switch. -/
theorem region_restored_after_visibility (g : Globals) (env : Env)
    (h : truthy g.options.points_view = true) :
    (regionAfter env env.reg0 (mainRun g env).trace).rows = (capturedRegion g env).rows ∧
    (regionAfter env env.reg0 (mainRun g env).trace).cols = (capturedRegion g env).cols ∧
    (regionAfter env env.reg0 (mainRun g env).trace).n = (capturedRegion g env).n ∧
    (regionAfter env env.reg0 (mainRun g env).trace).s = (capturedRegion g env).s ∧
    (regionAfter env env.reg0 (mainRun g env).trace).e = (capturedRegion g env).e ∧
    (regionAfter env env.reg0 (mainRun g env).trace).w = (capturedRegion g env).w ∧
    (regionAfter env env.reg0 (mainRun g env).trace).nsres = (capturedRegion g env).nsres ∧
    (regionAfter env env.reg0 (mainRun g env).trace).ewres = (capturedRegion g env).ewres := by
  rw [region_restored_helper g env h]
  exact ⟨rfl, rfl, rfl, rfl, rfl, rfl, rfl, rfl⟩

/-- Witness for C5 on a run with two viewpoints. -/
theorem region_restored_after_visibility_witness :
    truthy gView.options.points_view = true ∧
    (regionAfter envView envView.reg0 (mainRun gView envView).trace).nsres =
      (capturedRegion gView envView).nsres :=
  ⟨by decide, (region_restored_after_visibility gView envView (by decide)).2.2.2.2.2.2.1⟩

/-- C2 counterexample: with polygons of categories 0,1,2,3 and n_points=2
the claim would keep the categories below 2, namely [0, 1]; the filter the
code invokes (a row-dropping filter on the built WHERE clause) keeps
[2, 3] instead, and with n_points=0 it keeps the nonzero categories rather
than only the category-zero background. -/
theorem visibility_filter_keeps_complement :
    whereClauseFor "2" = WhereClause.catLt "2" ∧
    droprowKept [0, 1, 2, 3] (whereClauseFor "2") = [2, 3] ∧
    (droprowKept [0, 1, 2, 3] (whereClauseFor "2") == [0, 1]) = false ∧
    whereClauseFor "0" = WhereClause.catEq0 ∧
    droprowKept [0, 1, 2] (whereClauseFor "0") = [1, 2] ∧
    (droprowKept [0, 1, 2] (whereClauseFor "0") == [0]) = false := by
  refine ⟨by decide, by decide, by decide, by decide, by decide, by decide⟩

/-- C2 (amended): with viewpoints supplied, the polygon filter REMOVES the
polygons whose category is below n_points when n_points > 0 (keeping those
with category at least n_points) and removes only the category-zero
background polygon when no count is given (keeping the visible-area
polygons); the kept polygons are the exclusion region subtracted from the
river by the difference overlay. -/
theorem visibility_filter_drops_matching (g : Globals) (env : Env)
    (cats : List Int) (h : truthy g.options.points_view = true) :
    Event.run (Cmd.vDbDroprow "tmp_vis" (whereClauseFor g.options.n_points)
        g.options.output_vis env.ovw) ∈ (mainRun g env).trace ∧
    Event.run (Cmd.vOverlayNot
        (areaEvents g.options.river g.options.area g.options.buff env.ovw).2
        g.options.output_vis "tmp2_river" env.ovw) ∈ (mainRun g env).trace ∧
    (mainRun g env).riverArg = "tmp2_river" ∧
    (0 < pyInt g.options.n_points →
       droprowKept cats (whereClauseFor g.options.n_points) =
         cats.filter (fun c => decide (pyInt g.options.n_points ≤ c))) ∧
    (pyInt g.options.n_points ≤ 0 →
       droprowKept cats (whereClauseFor g.options.n_points) =
         cats.filter (fun c => !(c == 0))) := by
  refine ⟨?_, ?_, ?_, ?_, ?_⟩
  · cases ha : truthy g.options.area <;>
      cases hb : truthy g.options.buff <;>
        simp [mainRun, areaEvents, viewEvents, regionCheckEvents, pyEqStrInt,
          h, ha, hb, List.mem_append, List.mem_cons]
  · cases ha : truthy g.options.area <;>
      cases hb : truthy g.options.buff <;>
        simp [mainRun, areaEvents, viewEvents, regionCheckEvents, pyEqStrInt,
          h, ha, hb, List.mem_append, List.mem_cons]
  · simp [mainRun, viewEvents, h]
  · intro h0
    have hb : ∀ c : Int, (!(decide (c < pyInt g.options.n_points))) =
        decide (pyInt g.options.n_points ≤ c) := by
      intro c
      rw [← decide_not]
      exact decide_eq_decide.mpr Int.not_lt
    rw [whereClauseFor, if_pos h0]
    simp only [droprowKept, WhereClause.holds, hb]
  · intro h0
    rw [whereClauseFor, if_neg (by omega)]
    simp [droprowKept, WhereClause.holds]

/-- Witness for C2 (amended): on a run with viewpoints and the default
n_points=0, the kept polygons are exactly the nonzero categories. -/
theorem visibility_filter_drops_matching_witness :
    truthy gView.options.points_view = true ∧
    droprowKept [0, 1, 2] (whereClauseFor gView.options.n_points) =
      [0, 1, 2].filter (fun c => !(c == 0)) :=
  ⟨by decide,
   (visibility_filter_drops_matching gView envView [0, 1, 2] (by decide)).2.2.2.2
     (by decide)⟩

/-- C8 counterexample: in the run with area=park and buff=50, the buffered
area (and every other vector intermediate) is appended to the registry only
AFTER the call that creates it, so the at-or-before-creation registration
the claim states is false on the code. -/
theorem registration_follows_creation :
    regBeforeCreate (mainRun gArea50 baseEnv).trace = false := by decide

/-- The registry names the loop accumulates, pushed onto an accumulator. -/
def visAcc : List (Int × Int) → Nat → List String → List String
  | [], _, acc => acc
  | _ :: ps, i, acc => visAcc ps (i + 1) (("visual_" ++ toString i) :: acc)

/-- The relaxed registration checker walks the per-viewpoint loop
successfully: each viewshed output is registered by the very next event. -/
theorem chkRegWithin_viewshedSteps (tempR tempV accV : List String)
    (dtm : String) (ovw : Bool) :
    ∀ (pts : List (Int × Int)) (s : String) (i : Nat) (accR : List String)
      (rest : List Event),
      chkRegWithin tempR tempV accR accV ((viewshedSteps dtm ovw s i pts).1 ++ rest) =
      chkRegWithin tempR tempV (visAcc pts i accR) accV rest := by
  intro pts
  induction pts with
  | nil => intro s i accR rest; rfl
  | cons p ps ih =>
      intro s i accR rest
      simp only [viewshedSteps, List.cons_append, List.append_eq, chkRegWithin,
        createdTemps, createsRastName, createsVectName, visAcc]
      rw [ih]
      cases htr : tempR.contains ("visual_" ++ toString i) <;> simp

/-- Evaluating the all-check over a conditional singleton. -/
theorem all_if_singleton {α : Type} (c : Bool) (x : α) (f : α → Bool) :
    (List.all (if c = true then [x] else []) f) = (!c || f x) := by
  cases c <;> simp

/-- C8 (amended): every temporary layer is registered at the latest by the
event immediately following the call that creates it (for the combined
visibility raster the registration even precedes the mapcalc), and the
exit-time cleanup deletes exactly the accumulated registry contents; but
registration is NOT at-or-before creation, so a creating call that fails
leaves its layer unregistered. -/
theorem registration_within_one_of_creation (g : Globals) (env : Env)
    (h : (tmpvectOf (mainRun g env).trace).contains g.options.output_vis = false) :
    regWithinOneOfCreate (mainRun g env).trace = true ∧
    deletedAtExit g env =
      tmprastOf (mainRun g env).trace ++ tmpvectOf (mainRun g env).trace := by
  refine ⟨?_, rfl⟩
  unfold regWithinOneOfCreate
  generalize hR : tmprastOf (mainRun g env).trace = tempR
  generalize hV : tmpvectOf (mainRun g env).trace = tempV
  rw [hV] at h
  have hmem : g.options.output_vis ∉ tempV := by simpa using h
  cases ha : truthy g.options.area <;>
    cases hb : truthy g.options.buff <;>
      cases hp : truthy g.options.points_view <;>
        cases hm : truthy g.options.mfd <;>
          cases hn : truthy g.options.discharge_natural <;>
            simp [mainRun, areaEvents, viewEvents, dischargeEvents,
              regionCheckEvents, pyEqStrInt, ha, hb, hp, hm, hn,
              chkRegWithin, createdTemps, createsRastName, createsVectName,
              MapcalcFor.target, List.all_append, all_if_singleton,
              chkRegWithin_viewshedSteps, List.contains_cons, h, hmem]

/-- Witness for C8 (amended) on a run with viewpoints, an exclusion area
and an mfd value. -/
theorem registration_within_one_of_creation_witness :
    (tmpvectOf (mainRun gView envView).trace).contains gView.options.output_vis = false ∧
    regWithinOneOfCreate (mainRun gView envView).trace = true :=
  ⟨by decide, (registration_within_one_of_creation gView envView (by decide)).1⟩
